import Mathlib

/-!
Verification of the riddler-bench evaluation engine against its
natural-language specification.

The Python sources embedded here (shallowly, as pure Lean functions) are:
  - src/riddler_bench/dataset.py        (normalize_text)
  - src/riddler_bench/evaluate.py       (grade_answer, summarize_results)
  - src/riddler_bench/parallel_evaluate.py (process_question,
      evaluate_model_parallel, evaluate_all_models)
  - src/riddler_bench/cli.py            (the serial eval loop)
  - src/riddler_bench/models.py         (build_chat_model, ask_question)
  - src/riddler_bench/config.py         (ModelSpec, ProviderConfig)

Conventions of the embedding:
  - Python strings are Lean String values; the inputs exercised by the
    claims are ASCII, so Python character classes are modelled on their
    ASCII fragment (regex \w is letter/digit/underscore, \s is whitespace).
  - Python floats are modelled as exact rationals; round(x, n) is modelled
    as exact round-half-to-even on rationals.
  - Wall-clock measurements (latency_ms, elapsed_s) are abstracted to 0:
    no claim constrains them.
  - A Python exception is an Except.error carrying the message text.
-/

namespace RiddlerBench

/-! ## dataset.py: normalize_text -/

/-- Word character of the regex class \w on the ASCII fragment:
letters, digits and underscore. -/
def isWordChar (c : Char) : Bool :=
  c.isAlpha || c.isDigit || c = '_'

/-- Python str.strip on a character list: drop leading and trailing
whitespace. -/
def stripChars (cs : List Char) : List Char :=
  ((cs.dropWhile Char.isWhitespace).reverse.dropWhile Char.isWhitespace).reverse

/-- One finished maximal run of word characters from the article pass.
The regex sub of _ARTICLE_RE replaces a whole-word article (a, an, the)
with a single space; any other run is kept unchanged. -/
def flushRun (run : List Char) : List Char :=
  if run = ['a'] ∨ run = ['a', 'n'] ∨ run = ['t', 'h', 'e'] then [' '] else run

/-- Scanner for the _ARTICLE_RE substitution: a match of the regex
pattern word-boundary (a|an|the) word-boundary is exactly a maximal run
of word characters equal to an article, and each match is replaced by a
single space. The accumulator holds the current run reversed. -/
def articleScan (run : List Char) : List Char → List Char
  | [] => flushRun run.reverse
  | c :: rest =>
    if isWordChar c then articleScan (c :: run) rest
    else flushRun run.reverse ++ c :: articleScan [] rest

/-- The _WS_RE substitution: each maximal run of whitespace becomes a
single space. -/
def collapseWs : List Char → List Char
  | [] => []
  | [c] => if c.isWhitespace then [' '] else [c]
  | c1 :: c2 :: rest =>
    if c1.isWhitespace && c2.isWhitespace then collapseWs (c2 :: rest)
    else (if c1.isWhitespace then ' ' else c1) :: collapseWs (c2 :: rest)

/-- dataset.py normalize_text: strip, lowercase, remove whole-word
articles, replace every character outside \w and \s by a space, collapse
whitespace runs to one space, and strip again. -/
def normalize_text (text : String) : String :=
  let t1 := (stripChars text.data).map Char.toLower
  let t2 := articleScan [] t1
  let t3 := t2.map (fun c => if !isWordChar c && !c.isWhitespace then ' ' else c)
  String.mk (stripChars (collapseWs t3))

example : normalize_text "The Albert Einstein!!" = "albert einstein" := by decide
example : normalize_text "  Paris " = "paris" := by decide
example : normalize_text "the" = "" := by decide
example : normalize_text "<error: timeout>" = "error timeout" := by decide

/-! ## rapidfuzz token_set_ratio

grade_answer calls rapidfuzz.fuzz.token_set_ratio, an external library.
It is embedded from the published rapidfuzz algorithm (identical in
results to the fuzzywuzzy token_set_ratio the spec references): split
each string into its set of whitespace-delimited tokens, and take the
maximum of the normalized InDel similarities between
  t0 = sorted intersection,
  t1 = t0 plus the sorted tokens unique to the first string,
  t2 = t0 plus the sorted tokens unique to the second string,
with a shortcut returning 100 when one token set contains the other and
the intersection is non-empty, and 0 when either token set is empty. -/

/-- Python str.split with no separator: maximal non-whitespace runs. The
first argument accumulates the current word reversed. -/
def splitWsAux (cur : List Char) : List Char → List String
  | [] => if cur.isEmpty then [] else [String.mk cur.reverse]
  | c :: rest =>
    if c.isWhitespace then
      if cur.isEmpty then splitWsAux [] rest
      else String.mk cur.reverse :: splitWsAux [] rest
    else splitWsAux (c :: cur) rest

/-- Python str.split with no separator. -/
def pySplit (s : String) : List String := splitWsAux [] s.data

/-- First-occurrence deduplication, the order in which Python set and
dict iteration is modelled here (only order-insensitive quantities of
token sets are consumed below). The first argument is the set of
elements already seen. -/
def pyDedupAux (seen : List String) : List String → List String
  | [] => []
  | x :: xs =>
    if x ∈ seen then pyDedupAux seen xs
    else x :: pyDedupAux (x :: seen) xs

/-- First-occurrence deduplication of a token list: the token set. -/
def pyDedup (l : List String) : List String := pyDedupAux [] l

/-- Python string comparison on character lists: lexicographic by code
point. -/
def charsLt : List Char → List Char → Bool
  | [], [] => false
  | [], _ :: _ => true
  | _ :: _, [] => false
  | a :: as, b :: bs =>
    if a.toNat < b.toNat then true
    else if b.toNat < a.toNat then false
    else charsLt as bs

/-- Python string comparison: lexicographic by code point. -/
def strLt (a b : String) : Bool := charsLt a.data b.data

/-- Insertion step of the sort used for Python sorted on strings
(lexicographic by code point). -/
def insertSorted (x : String) : List String → List String
  | [] => [x]
  | y :: ys => if strLt x y then x :: y :: ys else y :: insertSorted x ys

/-- Python sorted on a list of strings. -/
def pySorted (l : List String) : List String := l.foldr insertSorted []

/-- One row update of the longest-common-subsequence dynamic program:
prev is the row for the prefix without x (entries for positions 1..m of
ys preceded by the entry for position 0 handled by the caller), and left
is the entry just computed for the new row. -/
def lcsRowStep (x : Char) : List Char → List Nat → Nat → List Nat
  | [], _, _ => []
  | y :: ys, prev, left =>
    match prev with
    | [] => []
    | diag :: prevRest =>
      let up := prevRest.headD 0
      let v := if y = x then diag + 1 else max left up
      v :: lcsRowStep x ys prevRest v

/-- Length of the longest common subsequence of two character lists. -/
def lcs (xs ys : List Char) : Nat :=
  (xs.foldl (fun row x => 0 :: lcsRowStep x ys row 0)
    (List.replicate (ys.length + 1) 0)).getLastD 0

/-- InDel distance (Levenshtein restricted to insertions and deletions)
between two strings, the distance underlying rapidfuzz fuzz.ratio. -/
def indelDist (a b : String) : Nat :=
  a.length + b.length - 2 * lcs a.data b.data

/-- Kernel-reducible embedding of an integer into the rationals. The
cast and the Rat field operations are avoided throughout because they do
not evaluate by kernel reduction; every rational value is built with
mkRat from integer arithmetic instead, which denotes the same exact
rational. -/
def intQ (z : ℤ) : ℚ := mkRat z 1

/-- Kernel-reducible maximum of two rationals (Python max of two
floats). -/
def ratMax (a b : ℚ) : ℚ := if Rat.blt a b then b else a

/-- The normalized InDel similarity scaled to 0..100 that underlies
rapidfuzz fuzz.ratio: 100 * (1 - dist / total) for a distance dist
between two strings of total length total (dist never exceeds total). -/
def normSim100 (dist total : ℕ) : ℚ :=
  mkRat (Int.ofNat (100 * (total - dist))) total

/-- rapidfuzz fuzz.token_set_ratio on two strings, as an exact rational
in [0, 100]. Only order-insensitive quantities of the token sets are
used (the joined-intersection length and the sorted difference lists),
so the unspecified iteration order of Python sets is immaterial. -/
def token_set_ratio (s1 s2 : String) : ℚ :=
  let tokens_a := pyDedup (pySplit s1)
  let tokens_b := pyDedup (pySplit s2)
  if tokens_a.isEmpty || tokens_b.isEmpty then 0
  else
    let intersect := tokens_a.filter (fun t => t ∈ tokens_b)
    let diff_ab := tokens_a.filter (fun t => t ∉ tokens_b)
    let diff_ba := tokens_b.filter (fun t => t ∉ tokens_a)
    if !intersect.isEmpty && (diff_ab.isEmpty || diff_ba.isEmpty) then 100
    else
      let diff_ab_joined := String.intercalate " " (pySorted diff_ab)
      let diff_ba_joined := String.intercalate " " (pySorted diff_ba)
      let ab_len := diff_ab_joined.length
      let ba_len := diff_ba_joined.length
      let sect_len := (String.intercalate " " intersect).length
      let bonus : Nat := if sect_len = 0 then 0 else 1
      let sect_ab_len := sect_len + bonus + ab_len
      let sect_ba_len := sect_len + bonus + ba_len
      let dist := indelDist diff_ab_joined diff_ba_joined
      let r12 := normSim100 dist (sect_ab_len + sect_ba_len)
      let r01 := normSim100 (sect_ab_len - sect_len) (sect_len + sect_ab_len)
      let r02 := normSim100 (sect_ba_len - sect_len) (sect_len + sect_ba_len)
      ratMax r12 (ratMax r01 r02)

example : token_set_ratio "fuzzy was bear" "fuzzy fuzzy was bear" = 100 := by decide
example : token_set_ratio "" "paris" = 0 := by decide
example : token_set_ratio "paris" "paris" = 100 := by decide

/-! ## dataset.py QAItem and evaluate.py grading -/

/-- dataset.py QAItem. -/
structure QAItem where
  id : String
  question : String
  answer : String
  aliases : Option (List String) := none
  category : Option String := none
deriving DecidableEq, Repr

/-- evaluate.py Grade. The fuzzy field carries int(fuzzy_score). -/
structure Grade where
  is_exact : Bool
  is_alias : Bool
  fuzzy : ℤ
  is_correct : Bool
deriving DecidableEq, Repr

/-- Python max over a list of floats, with the source guard
max(fuzzy_scores) if fuzzy_scores else 0. -/
def pyListMax : List ℚ → ℚ
  | [] => 0
  | x :: xs => xs.foldl ratMax x

/-- Python int() on a float: truncation toward zero (the numerator and
denominator of a normalized rational, divided with truncation). -/
def pyInt (q : ℚ) : ℤ :=
  q.num.tdiv (Int.ofNat q.den)

/-- evaluate.py grade_answer. The prediction is compared to the
normalized answer, the set of normalized aliases, and fuzzily (against
the answer and every normalized alias) via token_set_ratio; the
threshold comparison uses the un-truncated float score, as in the
source. -/
def grade_answer (item : QAItem) (prediction : String)
    (fuzzy_threshold : ℤ := 85) : Grade :=
  let gold := normalize_text item.answer
  let pred := normalize_text prediction
  let is_exact := pred == gold && decide (0 < pred.length)
  let alias_norms := pyDedup (((item.aliases.getD []).map normalize_text))
  let is_alias := decide (pred ∈ alias_norms)
  let fuzzy_scores :=
    token_set_ratio pred gold :: alias_norms.map (fun a => token_set_ratio pred a)
  let fuzzy_score := pyListMax fuzzy_scores
  let is_correct := is_exact || is_alias || decide (intQ fuzzy_threshold ≤ fuzzy_score)
  { is_exact := is_exact, is_alias := is_alias,
    fuzzy := pyInt fuzzy_score, is_correct := is_correct }

/-- A Python value that can reach the prediction parameter of
grade_answer in this program: a string, the (clean_text, token_usage)
pair returned by models.py ask_question (the usage dict is irrelevant to
control flow and is dropped), or None. -/
inductive PyVal where
  | str (s : String)
  | tuple (text : String)
  | noneV
deriving DecidableEq, Repr

/-- The string held by a PyVal, used only on the str branch. -/
def PyVal.asString : PyVal → String
  | .str s => s
  | .tuple t => t
  | .noneV => ""

/-- grade_answer under Python dynamic typing: normalize_text calls
prediction.strip(), which raises AttributeError unless the prediction
is a string. -/
def grade_answer_py (item : QAItem) (prediction : PyVal)
    (fuzzy_threshold : ℤ := 85) : Except String Grade :=
  match prediction with
  | .str s => .ok (grade_answer item s fuzzy_threshold)
  | .tuple _ => .error "AttributeError: tuple object has no attribute strip"
  | .noneV => .error "AttributeError: NoneType object has no attribute strip"

example : (grade_answer ⟨"1", "Q", "Paris", some ["City of Light"], none⟩
    "the city of light" 85).is_alias = true := by decide
example : (grade_answer ⟨"1", "Q", "Paris", some ["City of Light"], none⟩
    "<error: timeout>" 85).is_correct = false := by decide

/-! ## evaluate.py: result rows and summarize_results -/

/-- One persisted evaluation outcome, the row dict built by
parallel_evaluate.py process_question (and by the identical loop body of
the cli.py eval command). Wall-clock latency is abstracted to 0. -/
structure ResultRow where
  id : String
  question : String
  answer_ref : String
  aliases : List String
  model : String
  answer : String
  latency_ms : ℕ
  is_exact : Bool
  is_alias : Bool
  fuzzy : ℤ
  is_correct : Bool
deriving DecidableEq, Repr

/-- Round half to even of a rational to an integer, the rounding of
Python round (binary floating point is modelled as exact rational
arithmetic). The remainder r of the floor division satisfies
0 ≤ r < den, and 2r is compared with den to place the value relative to
the halfway point. -/
def roundHalfEven (q : ℚ) : ℤ :=
  let den := Int.ofNat q.den
  let f := q.num.ediv den
  let r := q.num - f * den
  if 2 * r < den then f
  else if den < 2 * r then f + 1
  else if f % 2 = 0 then f else f + 1

/-- Python round(q, ndigits) on a (rationally modelled) float. -/
def pyRound (q : ℚ) (ndigits : ℕ) : ℚ :=
  mkRat (roundHalfEven (mkRat (q.num * Int.ofNat (10 ^ ndigits)) q.den))
    (10 ^ ndigits)

/-- The dict returned by evaluate.py summarize_results, before the model
name and elapsed time are added. -/
structure SummaryCounts where
  total : ℕ
  correct : ℕ
  accuracy : ℚ
  «exact» : ℕ
  «alias» : ℕ
  avg_fuzzy : ℚ
deriving DecidableEq, Repr

/-- evaluate.py summarize_results: a pure reduction of a row list. The
average fuzzy score divides by max(total, 1) and the accuracy is
round(correct / total, 3) when total is non-zero and 0.0 otherwise. -/
def summarize_results (rows : List ResultRow) : SummaryCounts :=
  let total := rows.length
  let correct := (rows.filter (fun r => r.is_correct)).length
  let exact_n := (rows.filter (fun r => r.is_exact)).length
  let alias_n := (rows.filter (fun r => r.is_alias)).length
  let avg_fuzzy := pyRound (mkRat (rows.map (fun r => r.fuzzy)).sum (max total 1)) 1
  { total := total, correct := correct,
    accuracy := if total = 0 then 0 else pyRound (mkRat (Int.ofNat correct) total) 3,
    «exact» := exact_n, «alias» := alias_n, avg_fuzzy := avg_fuzzy }

/-! ## config.py: providers and model specs

The *_env indirection of get_resolved_query_params and
get_resolved_headers reads os.environ; the maps are embedded in already
resolved form (association lists), which is how every claim consumes
them. -/

/-- config.py ProviderConfig, with query params and default headers in
resolved form. -/
structure ProviderConfig where
  name : String
  base_url : Option String := none
  base_url_env : Option String := none
  api_key_env : String
  query_params : List (String × String) := []
  default_headers : List (String × String) := []
deriving DecidableEq, Repr

/-- config.py ProviderConfig.get_base_url under an environment (a
partial map from variable names to values). Python truthiness: an empty
string configured as base_url falls through to the env branch. -/
def get_base_url (p : ProviderConfig) (env : String → Option String) :
    Except String String :=
  if p.base_url.getD "" ≠ "" then .ok (p.base_url.getD "")
  else if p.base_url_env.getD "" ≠ "" then
    match env (p.base_url_env.getD "") with
    | some url => if url ≠ "" then .ok url else
        .error ("ValueError: Environment variable " ++ p.base_url_env.getD "" ++ " not set")
    | none => .error ("ValueError: Environment variable " ++ p.base_url_env.getD "" ++ " not set")
  else .error "ValueError: Neither base_url nor base_url_env specified"

/-- config.py ModelSpec. -/
structure ModelSpec where
  provider_key : String
  provider : ProviderConfig
  model_id : String
  deployment : Option String := none
deriving DecidableEq, Repr

/-- config.py ModelSpec.display_name. -/
def display_name (s : ModelSpec) : String :=
  match s.deployment with
  | some d => if d ≠ s.model_id
      then s.provider_key ++ ":" ++ s.model_id ++ "(" ++ d ++ ")"
      else s.provider_key ++ ":" ++ s.model_id
  | none => s.provider_key ++ ":" ++ s.model_id

/-! ## models.py: build_chat_model -/

/-- The keyword arguments with which models.py build_chat_model
constructs the langchain chat-model client (AzureChatOpenAI or
ChatOpenAI). The client itself is an external collaborator; what the
repository controls is this configuration. -/
structure ChatModelCfg where
  kind : String
  model : String
  temperature : Option ℚ
  timeout : ℕ
  max_retries : ℕ
  base_url : Option String
  api_version : Option String
  use_responses_api : Bool
  default_headers : List (String × String)
deriving DecidableEq, Repr

/-- Azure models routed to the Responses API by build_chat_model. -/
def reasoning_models : List String :=
  ["o3-pro", "o3-mini", "o3", "gpt-5", "gpt-5-mini", "gpt-5-nano"]

/-- Substring test on strings (Python in operator). -/
def containsSub : List Char → List Char → Bool
  | _, [] => true
  | [], _ :: _ => false
  | h :: t, n => n.isPrefixOf (h :: t) || containsSub t n

/-- models.py _build_headers: the resolved provider headers, with the
OpenRouter best-practice headers added by setdefault when the base url
is an openrouter.ai url. -/
def build_headers (p : ProviderConfig) (env : String → Option String) :
    Except String (List (String × String)) :=
  match get_base_url p env with
  | .error e => .error e
  | .ok url =>
    let headers := p.default_headers
    if containsSub url.data "openrouter.ai".data then
      let h1 := if (headers.lookup "HTTP-Referer").isSome then headers
        else headers ++ [("HTTP-Referer", "https://localhost")]
      let h2 := if (h1.lookup "X-Title").isSome then h1
        else h1 ++ [("X-Title", "Convoluted Benchmark")]
      .ok h2
    else .ok headers

/-- models.py build_chat_model. Raises EnvironmentError when the api
key variable is unset or empty; on the azure_openai branch reasoning
models get the Responses API without a temperature; every constructed
client is configured with the timeout and max_retries arguments, whose
defaults (60 and 2) are what both callers in the repository use. -/
def build_chat_model (spec : ModelSpec) (env : String → Option String)
    (temperature : ℚ := 0) (timeout : ℕ := 60) (max_retries : ℕ := 2) :
    Except String ChatModelCfg :=
  let api_key := (env spec.provider.api_key_env).getD ""
  if api_key = "" then
    .error ("EnvironmentError: Environment variable '" ++ spec.provider.api_key_env ++
      "' is required for provider '" ++ spec.provider_key ++ "'.")
  else if spec.provider_key = "azure_openai" then
    let api_version := (spec.provider.query_params.lookup "api-version")
    let model_name := spec.deployment.getD spec.model_id
    match get_base_url spec.provider env with
    | .error e => .error e
    | .ok endpoint =>
      if model_name ∈ reasoning_models then
        .ok { kind := "AzureChatOpenAI", model := model_name,
              temperature := none, timeout := timeout,
              max_retries := max_retries, base_url := some endpoint,
              api_version := api_version, use_responses_api := true,
              default_headers := [] }
      else
        .ok { kind := "AzureChatOpenAI", model := model_name,
              temperature := some temperature, timeout := timeout,
              max_retries := max_retries, base_url := some endpoint,
              api_version := api_version, use_responses_api := false,
              default_headers := [] }
  else
    match build_headers spec.provider env with
    | .error e => .error e
    | .ok headers =>
      match get_base_url spec.provider env with
      | .error e => .error e
      | .ok url =>
        let model_name := spec.deployment.getD spec.model_id
        .ok { kind := "ChatOpenAI", model := model_name,
              temperature := some temperature, timeout := timeout,
              max_retries := max_retries, base_url := some url,
              api_version := none, use_responses_api := false,
              default_headers := headers }

/-! ## parallel_evaluate.py: worker, per-model pool, orchestrator

The outcome of one ask_question call is either a raised exception (the
worker catches it and substitutes the tagged error string) or a normal
return; a normal return of models.py ask_question is the tuple
(clean_text, token_usage), which the worker binds un-unpacked. -/

/-- The outcome of the ask_question call for one item. -/
inductive InvokeOutcome where
  | raises (msg : String)
  | returns (text : String)
deriving DecidableEq, Repr

/-- parallel_evaluate.py process_question (also the body of the per-item
loop of cli.py eval, which is line for line the same): call the model,
on an exception substitute the tagged error text, grade, and build the
row. A normal ask_question return is a (text, usage) tuple, so on that
path grade_answer raises AttributeError inside normalize_text and no
row is produced; the error escapes process_question (the try block
covers only the ask_question call). -/
def process_question (model_key : String) (fuzzy_threshold : ℤ)
    (item : QAItem) (outcome : InvokeOutcome) : Except String ResultRow :=
  let answer : PyVal := match outcome with
    | .raises e => .str ("<error: " ++ e ++ ">")
    | .returns text => .tuple text
  match grade_answer_py item answer fuzzy_threshold with
  | .error e => .error e
  | .ok g =>
    .ok { id := item.id, question := item.question,
          answer_ref := item.answer, aliases := item.aliases.getD [],
          model := model_key, answer := answer.asString, latency_ms := 0,
          is_exact := g.is_exact, is_alias := g.is_alias,
          fuzzy := g.fuzzy, is_correct := g.is_correct }

/-- The rows a model run emits: each worker appends its row to the
result file and returns it to the collection loop just before
finishing, so the written stream and the in-memory collection are the
same list. A worker whose process_question raises is caught by the
as_completed loop, which only logs: no row is emitted for that item.
The list argument is the completion order of the pool, a permutation of
the item list. -/
def model_rows (model_key : String) (fuzzy_threshold : ℤ)
    (invoke : QAItem → InvokeOutcome) (completion : List QAItem) :
    List ResultRow :=
  completion.filterMap
    (fun it => (process_question model_key fuzzy_threshold it (invoke it)).toOption)

/-- The summary dict of one model run: summarize_results of the
collected rows plus the model key (elapsed wall-clock time abstracted),
and the error key present only when the model failed before its pool
ran. -/
structure ModelStats where
  model : String
  total : ℕ
  correct : ℕ
  accuracy : ℚ
  «exact» : ℕ
  «alias» : ℕ
  avg_fuzzy : ℚ
  error : Option String
deriving DecidableEq, Repr

/-- parallel_evaluate.py evaluate_model_parallel, summary part: the
stats dict returned on the non-raising path. -/
def stats_of (model_key : String) (rows : List ResultRow) : ModelStats :=
  let s := summarize_results rows
  { model := model_key, total := s.total, correct := s.correct,
    accuracy := s.accuracy, «exact» := s.«exact», «alias» := s.«alias»,
    avg_fuzzy := s.avg_fuzzy, error := none }

/-- parallel_evaluate.py evaluate_all_models, error path: the stats dict
built when evaluate_model_parallel raises (notably when
build_chat_model raises). The total is len(items). -/
def error_stats (s : ModelSpec) (e : String) (items : List QAItem) : ModelStats :=
  { model := display_name s, total := items.length, correct := 0,
    accuracy := 0, «exact» := 0, «alias» := 0, avg_fuzzy := 0,
    error := some e }

/-- The result of building one model's invoker: either the exception
text of a build_chat_model failure, or the invocation behavior of the
built client on each question. This is the per-model environment an
evaluation run consumes. -/
abbrev BuildResult := Except String (QAItem → InvokeOutcome)

/-- One model's run inside the evaluate_all_models loop: the try block
around evaluate_model_parallel catches the build failure and records
error_stats; otherwise the pool runs all items and the summary is
summarize_results of the collected rows. -/
def run_one_model (items : List QAItem) (fuzzy_threshold : ℤ)
    (env : ModelSpec → BuildResult) (s : ModelSpec) : ModelStats :=
  match env s with
  | .error e => error_stats s e items
  | .ok invoke =>
    stats_of (display_name s) (model_rows (display_name s) fuzzy_threshold invoke items)

/-- parallel_evaluate.py _get_provider_name: the display name up to the
first colon. -/
def provider_name (s : ModelSpec) : String :=
  ((display_name s).splitOn ":").headD ""

/-- The provider grouping of evaluate_all_models: a dict keyed by
provider in first-occurrence order, each value the provider's specs in
input order; the run then walks the groups in order, so the effective
model order is this flattening. -/
def provider_groups (specs : List ModelSpec) : List ModelSpec :=
  (pyDedup (specs.map provider_name)).flatMap
    (fun p => specs.filter (fun s => provider_name s = p))

/-- parallel_evaluate.py evaluate_all_models, summary part: one stats
dict per grouped spec, appended in run order. -/
def evaluate_all_models (env : ModelSpec → BuildResult)
    (specs : List ModelSpec) (items : List QAItem) (fuzzy_threshold : ℤ) :
    List ModelStats :=
  (provider_groups specs).map (run_one_model items fuzzy_threshold env)

/-! ## The result files

The file system is a total map from paths to row lists (a missing file
and an empty file are not distinguished: append_jsonl opens in append
mode and creates the file either way). -/

/-- Python str.replace for a single-character pattern (the source
replaces the separators / and :), a character-wise map. -/
def pyReplace (s : String) (pat rep : Char) : String :=
  String.mk (s.data.map (fun c => if c = pat then rep else c))

/-- The per-model output path: out_dir joined with the display name,
path-unsafe separators replaced, plus the jsonl suffix. -/
def out_path (out_dir model_key : String) : String :=
  out_dir ++ "/" ++ pyReplace (pyReplace model_key '/' '_') ':' '_' ++ ".jsonl"

/-- File-system contents: rows per path. -/
def FS := String → List ResultRow

/-- Pointwise update of the file-system map. -/
def fsSet (fs : FS) (p : String) (rows : List ResultRow) : FS :=
  fun q => if q = p then rows else fs q

/-- parallel_evaluate.py evaluate_model_parallel, file part: the output
file is unlinked first (before build_chat_model is called), then each
completing worker appends its row; a build failure raises after the
unlink, so the file is left cleared. -/
def evaluate_model_fs (fs : FS) (out_dir model_key : String)
    (fuzzy_threshold : ℤ) (build : BuildResult) (completion : List QAItem) : FS :=
  let path := out_path out_dir model_key
  let fs1 := fsSet fs path []
  match build with
  | .error _ => fs1
  | .ok invoke =>
    fsSet fs1 path (model_rows model_key fuzzy_threshold invoke completion)

/-- cli.py eval, file part for one model: no unlink, rows are appended
to whatever the file already holds; the first successful invocation
makes grade_answer raise on the (text, usage) tuple, which nothing
catches, so the command aborts with rows appended so far kept. -/
def cli_eval_model_fs (fs : FS) (out_dir model_key : String)
    (fuzzy_threshold : ℤ) (invoke : QAItem → InvokeOutcome) :
    List QAItem → FS × Option String
  | [] => (fs, none)
  | it :: rest =>
    match process_question model_key fuzzy_threshold it (invoke it) with
    | .ok row =>
      let path := out_path out_dir model_key
      cli_eval_model_fs (fsSet fs path (fs path ++ [row])) out_dir model_key
        fuzzy_threshold invoke rest
    | .error e => (fs, some e)

/-! ## Sample inputs used by the concrete evaluations -/

/-- The single-item dataset of the end-to-end scenarios of the spec. -/
def itemParis : QAItem := ⟨"1", "Q", "Paris", some ["City of Light"], none⟩

/-- An item whose reference answer collides with the tagged error text
of a timed-out invocation. -/
def itemErrorish : QAItem := ⟨"2", "Q", "error timeout", none, none⟩

/-- A row of the 3-row aggregation fixture. -/
def fixture_row (c : Bool) (fz : ℤ) : ResultRow :=
  { id := "", question := "", answer_ref := "", aliases := [], model := "",
    answer := "", latency_ms := 0, is_exact := false, is_alias := false,
    fuzzy := fz, is_correct := c }

/-- The 3-row aggregation fixture: 2 correct rows, fuzzy scores
90, 40, 70. -/
def fixture_rows : List ResultRow :=
  [fixture_row true 90, fixture_row false 40, fixture_row true 70]

/-- A groq model spec. -/
def spec_groq : ModelSpec :=
  ⟨"groq", ⟨"Groq", some "https://api.groq.com/openai/v1", none,
    "GROQ_API_KEY", [], []⟩, "llama-3.1-8b-instant", none⟩

/-- An openrouter model spec. -/
def spec_openrouter : ModelSpec :=
  ⟨"openrouter", ⟨"OpenRouter", some "https://openrouter.ai/api/v1", none,
    "OPENROUTER_API_KEY", [], []⟩, "gpt-4o", none⟩

/-- A build environment in which the groq invoker cannot be built and
every other invocation times out. -/
def env0 : ModelSpec → BuildResult := fun s =>
  if s.provider_key = "groq" then .error "boom"
  else .ok (fun _ => .raises "timeout")

/-- A row left behind by a previous run. -/
def stale_row : ResultRow :=
  { id := "0", question := "old", answer_ref := "old", aliases := [],
    model := "m", answer := "stale", latency_ms := 0, is_exact := false,
    is_alias := false, fuzzy := 0, is_correct := false }

/-- A file system already holding a stale row at the output path of
model m. -/
def fs0 : FS := fun p => if p = out_path "out" "m" then [stale_row] else []

/-- An environment carrying api keys for the sample providers. -/
def env_keys : String → Option String := fun k =>
  if k = "GROQ_API_KEY" || k = "OPENROUTER_API_KEY" then some "sk-test" else none

/-- The client configuration build_chat_model produces for the groq
sample spec under env_keys. -/
def cfg_groq : ChatModelCfg :=
  { kind := "ChatOpenAI", model := "llama-3.1-8b-instant",
    temperature := some 0, timeout := 60, max_retries := 2,
    base_url := some "https://api.groq.com/openai/v1", api_version := none,
    use_responses_api := false, default_headers := [] }

/-! ## Helper lemmas -/

/-- grade_answer depends on its prediction only through normalize_text. -/
theorem grade_answer_congr (item : QAItem) (θ : ℤ) (p₁ p₂ : String)
    (h : normalize_text p₁ = normalize_text p₂) :
    grade_answer item p₁ θ = grade_answer item p₂ θ := by
  unfold grade_answer
  rw [h]

/-- An exact grade is a correct grade. -/
theorem grade_exact_imp_correct (item : QAItem) (p : String) (θ : ℤ)
    (h : (grade_answer item p θ).is_exact = true) :
    (grade_answer item p θ).is_correct = true := by
  unfold grade_answer at h ⊢
  simp only at h ⊢
  simp [h]

/-- An alias grade is a correct grade. -/
theorem grade_alias_imp_correct (item : QAItem) (p : String) (θ : ℤ)
    (h : (grade_answer item p θ).is_alias = true) :
    (grade_answer item p θ).is_correct = true := by
  unfold grade_answer at h ⊢
  simp only at h ⊢
  simp [h]

/-- The empty candidate is never exact: its normalized length is 0. -/
theorem grade_empty_not_exact (item : QAItem) (θ : ℤ) :
    (grade_answer item "" θ).is_exact = false := by
  unfold grade_answer
  simp [show normalize_text "" = "" from rfl]

/-- Membership in the deduplication scan: an element appears when it is
in the remaining input and not yet seen. -/
theorem mem_pyDedupAux (x : String) :
    ∀ (l seen : List String), x ∈ pyDedupAux seen l ↔ x ∈ l ∧ x ∉ seen := by
  intro l
  induction l with
  | nil => intro seen; simp [pyDedupAux]
  | cons y ys ih =>
    intro seen
    by_cases hy : y ∈ seen
    · simp only [pyDedupAux, if_pos hy]
      rw [ih seen]
      constructor
      · rintro ⟨hxy, hs⟩; exact ⟨List.mem_cons_of_mem _ hxy, hs⟩
      · rintro ⟨hxy, hs⟩
        rcases List.mem_cons.mp hxy with h1 | h1
        · subst h1; exact absurd hy hs
        · exact ⟨h1, hs⟩
    · simp only [pyDedupAux, if_neg hy]
      rw [List.mem_cons, ih (y :: seen)]
      constructor
      · rintro (h1 | ⟨h1, h2⟩)
        · subst h1; exact ⟨List.mem_cons_self _ _, hy⟩
        · exact ⟨List.mem_cons_of_mem _ h1,
            fun hs => h2 (List.mem_cons_of_mem _ hs)⟩
      · rintro ⟨h1, h2⟩
        rcases List.mem_cons.mp h1 with h3 | h3
        · exact Or.inl h3
        · by_cases hxy : x = y
          · exact Or.inl hxy
          · exact Or.inr ⟨h3, fun hs =>
              (List.mem_cons.mp hs).elim hxy h2⟩

/-- Membership in the deduplicated token list. -/
theorem mem_pyDedup (x : String) (l : List String) :
    x ∈ pyDedup l ↔ x ∈ l := by
  unfold pyDedup
  rw [mem_pyDedupAux]
  simp

/-- The deduplication scan yields no duplicates. -/
theorem nodup_pyDedupAux :
    ∀ (l seen : List String), (pyDedupAux seen l).Nodup := by
  intro l
  induction l with
  | nil => intro seen; simp [pyDedupAux]
  | cons y ys ih =>
    intro seen
    by_cases hy : y ∈ seen
    · simpa [pyDedupAux, if_pos hy] using ih seen
    · simp only [pyDedupAux, if_neg hy]
      refine List.nodup_cons.mpr ⟨?_, ih (y :: seen)⟩
      intro hmem
      exact ((mem_pyDedupAux y ys (y :: seen)).mp hmem).2 (List.mem_cons_self _ _)

/-- The deduplicated list has no duplicates. -/
theorem nodup_pyDedup (l : List String) : (pyDedup l).Nodup :=
  nodup_pyDedupAux l []

/-- token_set_ratio of the empty string against anything is 0: the left
token set is empty. -/
theorem token_set_ratio_empty_left (s : String) : token_set_ratio "" s = 0 := rfl

/-- The Python max of a list of zeros (or of nothing) is zero. -/
theorem pyListMax_zero :
    ∀ (l : List ℚ), (∀ x ∈ l, x = 0) → pyListMax l = 0 := by
  have aux : ∀ (xs : List ℚ), (∀ x ∈ xs, x = 0) →
      xs.foldl ratMax 0 = 0 := by
    intro xs
    induction xs with
    | nil => intro _; rfl
    | cons y ys ih =>
      intro h
      have hy : y = 0 := h y (List.mem_cons_self _ _)
      subst hy
      show ys.foldl ratMax (ratMax 0 0) = 0
      have : ratMax 0 0 = 0 := rfl
      rw [this]
      exact ih (fun x hx => h x (List.mem_cons_of_mem _ hx))
  intro l h
  cases l with
  | nil => rfl
  | cons x xs =>
    have hx : x = 0 := h x (List.mem_cons_self _ _)
    subst hx
    exact aux xs (fun y hy => h y (List.mem_cons_of_mem _ hy))

/-! ## Claim theorems -/

/-- C1 (code_bug evaluation): with a single item whose model invocation
succeeds, ask_question returns the (text, usage) tuple, grade_answer
raises AttributeError on it, the as_completed loop swallows the error
without emitting anything, and the run ends with zero written rows and
a summary of total 0 where the claim requires exactly one row. -/
theorem c1_success_drops_row :
    process_question "m" 85 itemParis (.returns "Paris") =
      .error "AttributeError: tuple object has no attribute strip" ∧
    model_rows "m" 85 (fun _ => .returns "Paris") [itemParis] = [] ∧
    (stats_of "m" (model_rows "m" 85 (fun _ => .returns "Paris") [itemParis])).total = 0 := by
  exact ⟨rfl, rfl, rfl⟩

/-- C3 (counterexample): the claim says every row produced for a raised
invocation has isCorrect = false, but the tagged error text is graded
like any other answer; for an item whose reference answer normalizes to
the tagged text, the row is graded correct. -/
theorem c3_error_text_may_grade_correct :
    (process_question "m" 85 itemErrorish (.raises "timeout")).toOption.map
      (fun r => r.is_correct) = some true := by decide

/-- C3 (amended): when the invocation raises, the worker emits exactly
one ok row whose answer is the tagged error text and whose grade fields
are grade_answer of that text; grading the tag is what decides
correctness. In the single-item timeout scenario on the Paris item the
pool completes with total 1 and correct 0. -/
theorem c3_amended_one_tagged_row :
    (∀ (model_key : String) (θ : ℤ) (item : QAItem) (msg : String),
      process_question model_key θ item (.raises msg) =
        .ok { id := item.id, question := item.question,
              answer_ref := item.answer, aliases := item.aliases.getD [],
              model := model_key, answer := "<error: " ++ msg ++ ">",
              latency_ms := 0,
              is_exact := (grade_answer item ("<error: " ++ msg ++ ">") θ).is_exact,
              is_alias := (grade_answer item ("<error: " ++ msg ++ ">") θ).is_alias,
              fuzzy := (grade_answer item ("<error: " ++ msg ++ ">") θ).fuzzy,
              is_correct := (grade_answer item ("<error: " ++ msg ++ ">") θ).is_correct }) ∧
    (model_rows "m" 85 (fun _ => .raises "timeout") [itemParis]).length = 1 ∧
    (stats_of "m" (model_rows "m" 85 (fun _ => .raises "timeout") [itemParis])).total = 1 ∧
    (stats_of "m" (model_rows "m" 85 (fun _ => .raises "timeout") [itemParis])).correct = 0 ∧
    (stats_of "m" (model_rows "m" 85 (fun _ => .raises "timeout") [itemParis])).error = none := by
  refine ⟨fun model_key θ item msg => rfl, ?_, ?_, ?_, rfl⟩
  · decide
  · decide
  · decide

/-- C7: summarize_results is a pure reduction with no division fault:
the empty list yields all-zero counts, the accuracy is
round(correct / total, 3) guarded by total = 0, and the known 3-row
fixture (2 correct, fuzzy 90, 40, 70) yields accuracy 0.667 and average
fuzzy 66.7. -/
theorem c7_summarize_results :
    summarize_results [] =
      { total := 0, correct := 0, accuracy := 0, «exact» := 0,
        «alias» := 0, avg_fuzzy := 0 } ∧
    (∀ rows : List ResultRow,
      (summarize_results rows).total = rows.length ∧
      (summarize_results rows).accuracy =
        (if rows.length = 0 then 0
         else pyRound
           (mkRat (Int.ofNat (rows.filter (fun r => r.is_correct)).length)
             rows.length) 3)) ∧
    (summarize_results fixture_rows).accuracy = mkRat 667 1000 ∧
    (summarize_results fixture_rows).avg_fuzzy = mkRat 667 10 ∧
    (summarize_results fixture_rows).total = 3 ∧
    (summarize_results fixture_rows).correct = 2 := by
  refine ⟨by decide, fun rows => ⟨rfl, rfl⟩, by decide, by decide, by decide, by decide⟩

/-- The empty candidate is an alias match whenever some alias
normalizes to the empty string. -/
theorem grade_empty_alias (item : QAItem) (θ : ℤ)
    (h : ∃ a ∈ item.aliases.getD [], normalize_text a = "") :
    (grade_answer item "" θ).is_alias = true := by
  unfold grade_answer
  simp only [show normalize_text "" = "" from rfl]
  apply decide_eq_true
  rw [mem_pyDedup]
  obtain ⟨a, ha, hna⟩ := h
  exact List.mem_map.mpr ⟨a, ha, hna⟩

/-- C2 (counterexample): the claim says an empty candidate always
grades as incorrect, but an item carrying an alias that normalizes to
the empty string (here the article the) makes the empty candidate an
alias match and hence correct. -/
theorem c2_empty_candidate_graded_correct :
    (grade_answer ⟨"1", "Q", "Paris", some ["the"], none⟩ "" 85).is_correct = true := by
  decide

/-- C2 (amended): grade_answer is a total function of string
candidates whose Grade satisfies the exact-implies-correct and
alias-implies-correct invariants; the empty candidate is never exact,
and it grades as incorrect provided the threshold is positive and no
alias normalizes to the empty string; a None candidate is not graded
but raises AttributeError inside normalize_text. -/
theorem c2_amended_total_on_strings :
    ∀ (item : QAItem) (pred : String) (θ : ℤ),
      ((grade_answer item pred θ).is_exact = true →
        (grade_answer item pred θ).is_correct = true) ∧
      ((grade_answer item pred θ).is_alias = true →
        (grade_answer item pred θ).is_correct = true) ∧
      (grade_answer item "" θ).is_exact = false ∧
      (1 ≤ θ → (∀ a ∈ item.aliases.getD [], normalize_text a ≠ "") →
        (grade_answer item "" θ).is_correct = false) ∧
      grade_answer_py item PyVal.noneV θ =
        .error "AttributeError: NoneType object has no attribute strip" := by
  intro item pred θ
  refine ⟨grade_exact_imp_correct item pred θ, grade_alias_imp_correct item pred θ,
    grade_empty_not_exact item θ, ?_, rfl⟩
  intro hθ hal
  unfold grade_answer
  simp only [show normalize_text "" = "" from rfl]
  have h1 : decide (0 < ("" : String).length) = false := rfl
  have h2 : decide ("" ∈ pyDedup (List.map normalize_text (item.aliases.getD []))) = false := by
    apply decide_eq_false
    intro hmem
    rw [mem_pyDedup] at hmem
    obtain ⟨a, ha, hna⟩ := List.mem_map.mp hmem
    exact hal a ha hna
  have h3 : pyListMax (token_set_ratio "" (normalize_text item.answer) ::
      List.map (fun a => token_set_ratio "" a)
        (pyDedup (List.map normalize_text (item.aliases.getD [])))) = 0 := by
    apply pyListMax_zero
    intro x hx
    rcases List.mem_cons.mp hx with h4 | h4
    · rw [h4]; exact token_set_ratio_empty_left _
    · obtain ⟨a, _, ha2⟩ := List.mem_map.mp h4
      rw [← ha2]; exact token_set_ratio_empty_left _
  have h4 : decide (intQ θ ≤ (0 : ℚ)) = false := by
    apply decide_eq_false
    intro hle
    have hq : intQ θ = ((θ : ℚ)) := by
      unfold intQ
      rw [Rat.mkRat_eq_div]
      simp
    rw [hq] at hle
    have : θ ≤ 0 := by exact_mod_cast hle
    omega
  rw [h3]
  simp [h1, h2, h4]

/-- C2 (witness): the amended claim at a concrete aliasless item with
threshold 85. -/
theorem c2_amended_total_on_strings_w :
    (grade_answer ⟨"1", "Q", "Paris", none, none⟩ "" 85).is_correct = false :=
  ((c2_amended_total_on_strings ⟨"1", "Q", "Paris", none, none⟩ "x" 85).2.2.2.1)
    (by decide) (fun a ha => absurd ha (List.not_mem_nil a))

/-- C9: grading the candidates The Albert Einstein!! and
albert einstein yields the same isExact against the reference
Albert Einstein, because both candidates normalize to the same string
(lowercased, article removed, punctuation stripped, whitespace
collapsed). -/
theorem c9_normalization_equivalence (item : QAItem) (θ : ℤ)
    (h : item.answer = "Albert Einstein") :
    (grade_answer item "The Albert Einstein!!" θ).is_exact =
      (grade_answer item "albert einstein" θ).is_exact := by
  rw [grade_answer_congr item θ "The Albert Einstein!!" "albert einstein" (by decide)]

/-- C9 (witness): the equivalence at the concrete Albert Einstein item,
where both candidates grade exact. -/
theorem c9_normalization_equivalence_w :
    (⟨"1", "Q", "Albert Einstein", none, none⟩ : QAItem).answer = "Albert Einstein" ∧
    (grade_answer ⟨"1", "Q", "Albert Einstein", none, none⟩ "The Albert Einstein!!" 85).is_exact =
      (grade_answer ⟨"1", "Q", "Albert Einstein", none, none⟩ "albert einstein" 85).is_exact :=
  ⟨rfl, c9_normalization_equivalence ⟨"1", "Q", "Albert Einstein", none, none⟩ 85 rfl⟩

/-- C10: isExact demands a non-empty normalized candidate but isAlias
does not; for every item with an alias normalizing to the empty string,
the empty candidate grades isAlias and hence isCorrect, while isExact
stays false. -/
theorem c10_empty_alias_asymmetry (item : QAItem) (θ : ℤ)
    (h : ∃ a ∈ item.aliases.getD [], normalize_text a = "") :
    (grade_answer item "" θ).is_alias = true ∧
    (grade_answer item "" θ).is_correct = true ∧
    (grade_answer item "" θ).is_exact = false := by
  have ha := grade_empty_alias item θ h
  exact ⟨ha, grade_alias_imp_correct item "" θ ha, grade_empty_not_exact item θ⟩

/-- C10 (witness): the asymmetry at an item whose alias list is
[the]. -/
theorem c10_empty_alias_asymmetry_w :
    (grade_answer ⟨"1", "Q", "Paris", some ["the"], none⟩ "" 85).is_alias = true ∧
    (grade_answer ⟨"1", "Q", "Paris", some ["the"], none⟩ "" 85).is_correct = true ∧
    (grade_answer ⟨"1", "Q", "Paris", some ["the"], none⟩ "" 85).is_exact = false :=
  c10_empty_alias_asymmetry ⟨"1", "Q", "Paris", some ["the"], none⟩ 85
    ⟨"the", List.mem_cons_self _ _, by decide⟩

/-- Counting occurrences distributes over the provider-group
flattening. -/
theorem count_flatMap_sum (f : String → List ModelSpec) (a : ModelSpec) :
    ∀ l : List String,
      (l.flatMap f).count a = (l.map (fun p => (f p).count a)).sum := by
  intro l
  induction l with
  | nil => rfl
  | cons p t ih =>
    show ((f p ++ t.flatMap f).count a) = _
    rw [List.count_append, ih]
    rfl

/-- Counting one spec inside one provider filter. -/
theorem count_filter_provider (a : ModelSpec) (p : String) (specs : List ModelSpec) :
    (specs.filter (fun x => provider_name x = p)).count a =
      if provider_name a = p then specs.count a else 0 := by
  by_cases h : provider_name a = p
  · rw [if_pos h]
    exact List.count_filter (by simpa using h)
  · rw [if_neg h]
    apply List.count_eq_zero.mpr
    intro hmem
    exact h (by simpa using (List.mem_filter.mp hmem).2)

/-- Summing an indicator over a duplicate-free key list picks the key
out at most once. -/
theorem sum_ite_mem (c : String) (C : ℕ) :
    ∀ l : List String, l.Nodup →
      (l.map (fun p => if c = p then C else 0)).sum = if c ∈ l then C else 0 := by
  intro l
  induction l with
  | nil => intro _; simp
  | cons p t ih =>
    intro hnd
    obtain ⟨hp, ht⟩ := List.nodup_cons.mp hnd
    by_cases h : c = p
    · subst h
      simp [ih ht, hp]
    · simp [h, ih ht]

/-- The provider grouping of evaluate_all_models is a permutation of
the requested spec list: a dict keyed by provider drops nothing and
duplicates nothing. -/
theorem provider_groups_perm (specs : List ModelSpec) :
    (provider_groups specs).Perm specs := by
  apply List.perm_iff_count.mpr
  intro s
  unfold provider_groups
  rw [count_flatMap_sum]
  have h1 : (pyDedup (specs.map provider_name)).map
      (fun p => (specs.filter (fun x => provider_name x = p)).count s) =
      (pyDedup (specs.map provider_name)).map
      (fun p => if provider_name s = p then specs.count s else 0) :=
    List.map_congr_left (fun p _ => count_filter_provider s p specs)
  rw [h1, sum_ite_mem _ _ _ (nodup_pyDedup _)]
  by_cases hmem : s ∈ specs
  · rw [if_pos]
    rw [mem_pyDedup]
    exact List.mem_map_of_mem _ hmem
  · rw [List.count_eq_zero.mpr hmem]
    simp

/-- Every summary carries the display name of its spec, on both the
success and the error path. -/
theorem run_one_model_model (items : List QAItem) (θ : ℤ)
    (env : ModelSpec → BuildResult) (s : ModelSpec) :
    (run_one_model items θ env s).model = display_name s := by
  unfold run_one_model
  rcases env s with e | invoke <;> rfl

/-- C4: an evaluation run emits exactly one summary per requested spec
(the emitted model names are a permutation of the requested display
names); a spec whose invoker cannot be built still contributes a
summary, with its error recorded; and the summary slot of a model
depends only on that model's own build and invocation behavior, so a
failing invoker for one model cannot change another model's summary. -/
theorem c4_one_summary_per_spec :
    ∀ (env : ModelSpec → BuildResult) (specs : List ModelSpec)
      (items : List QAItem) (θ : ℤ),
      ((evaluate_all_models env specs items θ).map (fun st => st.model)).Perm
        (specs.map display_name) ∧
      (∀ s ∈ specs, ∀ e, env s = .error e →
        ∃ st ∈ evaluate_all_models env specs items θ,
          st.model = display_name s ∧ st.error = some e) ∧
      (∀ (env₂ : ModelSpec → BuildResult) (i : ℕ) (B : ModelSpec),
        (provider_groups specs)[i]? = some B → env B = env₂ B →
        (evaluate_all_models env specs items θ)[i]? =
          (evaluate_all_models env₂ specs items θ)[i]?) := by
  intro env specs items θ
  refine ⟨?_, ?_, ?_⟩
  · unfold evaluate_all_models
    rw [List.map_map]
    have hcomp : (fun st => ModelStats.model st) ∘ run_one_model items θ env =
        display_name := funext (fun s => run_one_model_model items θ env s)
    rw [hcomp]
    exact (provider_groups_perm specs).map display_name
  · intro s hs e he
    refine ⟨run_one_model items θ env s,
      List.mem_map_of_mem _ ((provider_groups_perm specs).mem_iff.mpr hs),
      run_one_model_model items θ env s, ?_⟩
    unfold run_one_model
    rw [he]
    rfl
  · intro env₂ i B hB hagree
    unfold evaluate_all_models
    rw [List.getElem?_map, List.getElem?_map, hB]
    show some (run_one_model items θ env B) = some (run_one_model items θ env₂ B)
    unfold run_one_model
    rw [hagree]

/-- C4 (witness): in a two-provider run where the groq invoker cannot
be built, the groq spec still yields a summary carrying its error. -/
theorem c4_one_summary_per_spec_w :
    ∃ st ∈ evaluate_all_models env0 [spec_groq, spec_openrouter] [itemParis] 85,
      st.model = display_name spec_groq ∧ st.error = some "boom" :=
  (c4_one_summary_per_spec env0 [spec_groq, spec_openrouter] [itemParis] 85).2.1
    spec_groq (List.mem_cons_self _ _) "boom" rfl

/-- C5 (counterexample): when the invoker cannot be built, the error
summary of evaluate_all_models reports total = len(items), not the
total = 0 the claim requires; with one item the total is 1. -/
theorem c5_error_summary_total_is_item_count :
    (run_one_model [itemParis] 85
      (fun _ => .error "EnvironmentError: missing key") spec_groq).total = 1 ∧
    (run_one_model [itemParis] 85
      (fun _ => .error "EnvironmentError: missing key") spec_groq).error =
        some "EnvironmentError: missing key" ∧
    (1 : ℕ) ≠ 0 := by
  exact ⟨rfl, rfl, by decide⟩

/-- C5 (amended): a model whose build fails gets the error summary
(error text recorded, correct 0, accuracy 0, but total = len(items)),
and no rows are written for it: its output file, already cleared by the
unlink that precedes the build, stays empty. -/
theorem c5_amended_error_summary (s : ModelSpec) (items : List QAItem)
    (θ : ℤ) (env : ModelSpec → BuildResult) (e : String) (fs : FS)
    (out_dir : String) (h : env s = .error e) :
    run_one_model items θ env s = error_stats s e items ∧
    (error_stats s e items).error = some e ∧
    (error_stats s e items).total = items.length ∧
    (error_stats s e items).correct = 0 ∧
    evaluate_model_fs fs out_dir (display_name s) θ (env s) items
      (out_path out_dir (display_name s)) = [] := by
  refine ⟨?_, rfl, rfl, rfl, ?_⟩
  · unfold run_one_model
    rw [h]
  · unfold evaluate_model_fs
    rw [h]
    simp [fsSet]

/-- C5 (witness): the amended claim at the groq spec whose build fails
under env0. -/
theorem c5_amended_error_summary_w :
    run_one_model [itemParis] 85 env0 spec_groq =
      error_stats spec_groq "boom" [itemParis] ∧
    evaluate_model_fs fs0 "out" (display_name spec_groq) 85 (env0 spec_groq)
      [itemParis] (out_path "out" (display_name spec_groq)) = [] := by
  have h := c5_amended_error_summary spec_groq [itemParis] 85 env0 "boom"
    fs0 "out" rfl
  exact ⟨h.1, h.2.2.2.2⟩

/-- C6 (counterexample): the claim says the invoker performs exactly
one remote request with no internal retry, but build_chat_model
configures the client with max_retries = 2 (its default, which both
callers use), so the constructed invoker is allowed two client-side
retries. -/
theorem c6_client_configured_with_retries :
    build_chat_model spec_groq env_keys 0 = .ok cfg_groq ∧
    cfg_groq.max_retries = 2 ∧ cfg_groq.max_retries ≠ 0 := by
  exact ⟨rfl, rfl, by decide⟩

/-- C6 (amended): every client build_chat_model constructs under the
defaults its callers use is configured with timeout 60 and
max_retries 2; the repository code itself makes a single llm.invoke
call per question, retries being delegated to the client. -/
theorem c6_amended_client_config :
    ∀ (spec : ModelSpec) (env : String → Option String) (t : ℚ)
      (cfg : ChatModelCfg),
      build_chat_model spec env t = .ok cfg →
      cfg.max_retries = 2 ∧ cfg.timeout = 60 := by
  intro spec env t cfg h
  simp only [build_chat_model] at h
  repeat' split at h
  all_goals first
    | exact Except.noConfusion h
    | (cases h; exact ⟨rfl, rfl⟩)

/-- C6 (witness): the amended claim at the groq sample build. -/
theorem c6_amended_client_config_w :
    build_chat_model spec_groq env_keys 0 = .ok cfg_groq ∧
    cfg_groq.max_retries = 2 ∧ cfg_groq.timeout = 60 :=
  ⟨rfl, c6_amended_client_config spec_groq env_keys 0 cfg_groq rfl⟩

/-- C8 (counterexample): the serial eval command never clears its
output file; run against a file already holding a stale row, the run
appends after it and the resulting stream still starts with the stale
row (length 2: the stale row plus the one new row), so the stream is
not only rows of the current run. -/
theorem c8_serial_eval_keeps_stale :
    ((cli_eval_model_fs fs0 "out" "m" 85 (fun _ => .raises "timeout")
        [itemParis]).1 (out_path "out" "m")).head? = some stale_row ∧
    ((cli_eval_model_fs fs0 "out" "m" 85 (fun _ => .raises "timeout")
        [itemParis]).1 (out_path "out" "m")).length = 2 := by
  decide

/-- C8 (amended): the parallel per-model evaluator unlinks its output
file before the first write, so whatever the file held before, after
the run it holds exactly the rows of the current run (empty on a build
failure), and no other path is touched. The serial eval command lacks
this clearing step. -/
theorem c8_amended_parallel_clears (fs : FS) (out_dir model_key : String)
    (θ : ℤ) (build : BuildResult) (completion : List QAItem) (q : String) :
    evaluate_model_fs fs out_dir model_key θ build completion q =
      (if q = out_path out_dir model_key then
        (match build with
         | .ok invoke => model_rows model_key θ invoke completion
         | .error _ => [])
       else fs q) := by
  rcases build with e | invoke
  · rfl
  · by_cases hq : q = out_path out_dir model_key
    · simp [evaluate_model_fs, fsSet, hq]
    · simp [evaluate_model_fs, fsSet, hq]

end RiddlerBench
